import Mathlib

set_option maxRecDepth 4000
set_option maxHeartbeats 1000000

/-!
Verification of the layout-search core of the Python-Image-Compilers
repository. Two scripts are embedded:

* `pack_imagesv2.py` (namespace `V2`): exhaustive enumeration of the bounded
  candidate grid, partitioned into dense and sparse layouts, folded with the
  deterministic comparator `select_better_layout`.
* `pack_images.py` (namespace `V1`): a generic simulated-annealing engine
  instantiated with the layout mutation, energy and validity functions.

Python integers are unbounded, so `columns`, `rows` and energies are embedded
as `Int`; the descriptor fields come from image sizes and file counts and are
embedded as `Nat` (`fps` is a float in Python, carried opaquely and unused by
the search; it is embedded as a rational).
-/

/-- The `Animation` namedtuple shared by both scripts:
`("frame_width", "frame_height", "frame_count", "fps")`. -/
structure Animation where
  frame_width : Nat
  frame_height : Nat
  frame_count : Nat
  fps : ℚ
deriving DecidableEq, Repr

/-- The `Layout` namedtuple shared by both scripts (named `AnnealingState`
in `pack_images.py`): `("columns", "rows")`. -/
structure Layout where
  columns : Int
  rows : Int
deriving DecidableEq, Repr

/-- `MAX_SIDE_LENGTH = 11000` from pack_imagesv2.py; pack_images.py inlines
the same constant in `state_valid`. -/
def MAX_SIDE_LENGTH : Nat := 11000

namespace V2

/-- `generate_layouts` from pack_imagesv2.py.
`max_columns = int(MAX_SIDE_LENGTH / frame_width)` is Python float division
truncated by `int(...)`; for the integer magnitudes involved (quotients of
integers up to 11000) this equals floor division, embedded as `Nat` division.
The generator yields `Layout(columns, rows)` for `columns` in
`range(1, max_columns + 1)` (outer) and `rows` in `range(1, max_rows + 1)`
(inner); the lazy generator is embedded as the list of yielded values in
yield order. -/
def generate_layouts (a : Animation) : List Layout :=
  let max_columns := MAX_SIDE_LENGTH / a.frame_width
  let max_rows := MAX_SIDE_LENGTH / a.frame_height
  (List.range' 1 max_columns).flatMap fun columns =>
    (List.range' 1 max_rows).map fun rows =>
      { columns := Nat.cast columns, rows := Nat.cast rows }

/-- `generate_sparse_layouts` from pack_imagesv2.py: keeps the generated
layouts with `columns * rows > frame_count`, in generation order. -/
def generate_sparse_layouts (a : Animation) : List Layout :=
  (generate_layouts a).filter fun l =>
    decide (l.columns * l.rows > (a.frame_count : Int))

/-- `generate_dense_layouts` from pack_imagesv2.py: keeps the generated
layouts with `columns * rows <= frame_count`, in generation order. -/
def generate_dense_layouts (a : Animation) : List Layout :=
  (generate_layouts a).filter fun l =>
    decide (l.columns * l.rows ≤ (a.frame_count : Int))

/-- The expression `abs(layout.columns * layout.rows - animation.frame_count)`
computed for each argument of `select_better_layout` in pack_imagesv2.py
(local variables `layout1_frame_delta` and `layout2_frame_delta`). -/
def frame_delta (a : Animation) (layout : Layout) : Int :=
  |layout.columns * layout.rows - (a.frame_count : Int)|

/-- The expression
`abs(layout.columns * animation.frame_width - layout.rows * animation.frame_height)`
computed for each argument of `select_better_layout` in pack_imagesv2.py
(local variables `layout1_side_length_delta` and `layout2_side_length_delta`). -/
def side_length_delta (a : Animation) (layout : Layout) : Int :=
  |layout.columns * (a.frame_width : Int) - layout.rows * (a.frame_height : Int)|

/-- `select_better_layout` from pack_imagesv2.py: compare by absolute
frame-count delta, then by absolute side-length delta, returning the first
argument on an exact tie. -/
def select_better_layout (a : Animation) (layout1 layout2 : Layout) : Layout :=
  let layout1_frame_delta := frame_delta a layout1
  let layout2_frame_delta := frame_delta a layout2
  if layout1_frame_delta < layout2_frame_delta then layout1
  else if layout1_frame_delta > layout2_frame_delta then layout2
  else
    let layout1_side_length_delta := side_length_delta a layout1
    let layout2_side_length_delta := side_length_delta a layout2
    if layout1_side_length_delta < layout2_side_length_delta then layout1
    else if layout1_side_length_delta > layout2_side_length_delta then layout2
    else layout1

/-- The strict preference order realized by `select_better_layout`:
`x` is strictly better than `y` when it has strictly smaller frame delta, or
equal frame delta and strictly smaller side-length delta. -/
def strictly_better (a : Animation) (x y : Layout) : Prop :=
  frame_delta a x < frame_delta a y ∨
    (frame_delta a x = frame_delta a y ∧ side_length_delta a x < side_length_delta a y)

instance (a : Animation) (x y : Layout) : Decidable (strictly_better a x y) := by
  unfold strictly_better
  infer_instance

/-- One iteration of the `for layout in possible_layouts` loop body of
`compute_layout` from pack_imagesv2.py. -/
def compute_layout_step (a : Animation) (best_layout : Option Layout)
    (layout : Layout) : Option Layout :=
  match best_layout with
  | none => some layout
  | some best => some (select_better_layout a best layout)

/-- `compute_layout` from pack_imagesv2.py: fold the selected candidate
sequence with `select_better_layout`, starting from `best_layout = None`. -/
def compute_layout (a : Animation) (sparse : Bool) : Option Layout :=
  let possible_layouts :=
    if sparse then generate_sparse_layouts a else generate_dense_layouts a
  possible_layouts.foldl (compute_layout_step a) none

/-- The pure diagnostic computation of `pack_animation` from pack_imagesv2.py
(lines 214-236, the part between `compute_layout` and the pixel copying):
`none` when `compute_layout` found no layout or when
`packed_frame_count = rows * columns` is not below `frame_count` (no message
printed); otherwise the reported removal count `frame_count - packed_frame_count`
together with the reported add count
`sparse_layout.rows * sparse_layout.columns - frame_count` when the sparse
search succeeds. -/
def pack_diagnostics (a : Animation) : Option (Int × Option Int) :=
  match compute_layout a false with
  | none => none
  | some layout =>
    let packed_frame_count := layout.rows * layout.columns
    if packed_frame_count < (a.frame_count : Int) then
      let removed_frame_count := (a.frame_count : Int) - packed_frame_count
      match compute_layout a true with
      | some sparse_layout =>
        some (removed_frame_count,
              some (sparse_layout.rows * sparse_layout.columns - (a.frame_count : Int)))
      | none => some (removed_frame_count, none)
    else none

end V2

namespace V1

/-- `state_valid` from pack_images.py: rejects a zero row or column count,
a packed width or height above 11000 pixels, and a capacity above the frame
count. (The side-length checks are one-sided: a negative `columns` makes
`width` negative, which is never greater than 11000.) -/
def state_valid (state : Layout) (a : Animation) : Bool :=
  if state.rows = 0 || state.columns = 0 then false
  else
    let width := state.columns * (a.frame_width : Int)
    let height := state.rows * (a.frame_height : Int)
    if width > 11000 || height > 11000 then false
    else decide (state.rows * state.columns ≤ (a.frame_count : Int))

/-- `mutate_state` from pack_images.py. The two global draws are made
explicit: `pick_increment` is the outcome of
`random.choice((lambda x: x + 1, lambda x: x - 1))` (`true` selects the
increment) and `pick_columns` the outcome of `random.randint(0, 1)`
(`true`, i.e. nonzero, mutates `columns`). An invalid mutation is discarded
and the unchanged state returned. -/
def mutate_state (state : Layout) (a : Animation)
    (pick_increment pick_columns : Bool) : Layout :=
  let mutation : Int → Int := if pick_increment then (· + 1) else (· - 1)
  let next_state : Layout :=
    if pick_columns then { columns := mutation state.columns, rows := state.rows }
    else { columns := state.columns, rows := mutation state.rows }
  if state_valid next_state a then next_state else state

/-- `compute_energy` from pack_images.py:
`animation.frame_count - state.rows * state.columns`. -/
def compute_energy (state : Layout) (a : Animation) : Int :=
  (a.frame_count : Int) - state.rows * state.columns

/-- `make_initial_state` from pack_images.py. `math.sqrt` on the pixel count
is modelled by `Nat.sqrt` (the float square root truncated by `int(...)`;
every claim about the optimizer quantifies over arbitrary initial states, so
the exact rounding of this heuristic is immaterial). -/
def make_initial_state (a : Animation) : Layout :=
  let pixels := a.frame_width * a.frame_height * a.frame_count
  let side_length := Nat.sqrt pixels
  { columns := Nat.cast (side_length / a.frame_width),
    rows := Nat.cast (side_length / a.frame_height) }

/-- The `AnnealingParams` namedtuple of pack_images.py, with the implicit
global randomness made explicit. The temperature schedule
(`temp_max`, `temp_min`, `cool_temp`) only determines the number of loop
iterations and the acceptance probability `exp((current - next) / temp)`;
it is embedded as the iteration count `steps`, and the outcome of each
comparison `exp(...) > random.random()` as the stream `accept_draw`
(when `next_energy ≤ current_energy` the exponential is at least 1 and
`random.random()` is drawn from `[0, 1)`, so the comparison is forced true).
`mutate_state` receives the iteration index so that the closure can consume
its own per-iteration random draws. -/
structure AnnealingParams (σ : Type) where
  initial_state : σ
  mutate_state : Nat → σ → σ
  compute_energy : σ → Int
  steps : Nat
  accept_draw : Nat → Bool

/-- The `while current_temp > params.temp_min` loop of `simulate_annealing`
from pack_images.py, running for the given remaining iteration count and
threading (current state, current energy, best state, best energy). -/
def simulate_annealing_loop {σ : Type} (params : AnnealingParams σ) :
    Nat → Nat → σ × Int → σ × Int → σ
  | 0, _, _, best => best.1
  | fuel + 1, i, current, best =>
    let next_state := params.mutate_state i current.1
    let next_energy := params.compute_energy next_state
    if next_energy ≤ current.2 ∨ params.accept_draw i = true then
      if next_energy < best.2 then
        simulate_annealing_loop params fuel (i + 1) (next_state, next_energy)
          (next_state, next_energy)
      else
        simulate_annealing_loop params fuel (i + 1) (next_state, next_energy) best
    else
      simulate_annealing_loop params fuel (i + 1) current best

/-- `simulate_annealing` from pack_images.py: start from the initial state
and its energy, run the cooling loop, return the best state recorded. -/
def simulate_annealing {σ : Type} (params : AnnealingParams σ) : σ :=
  let current_energy := params.compute_energy params.initial_state
  simulate_annealing_loop params params.steps 0
    (params.initial_state, current_energy)
    (params.initial_state, current_energy)

/-- The iteration count of the schedule in `compute_layout` from
pack_images.py: `temp_max = 15`, `temp_min = 0.001`, cooling by fixed
decrement `0.001`, so the loop body runs while `15 - 0.001 * n > 0.001`,
i.e. 14999 times. -/
def anneal_steps : Nat := 14999

/-- The `AnnealingParams` bundle built by `compute_layout` from
pack_images.py for a given animation, initial state and random streams
(`increments i`, `which i` resolve the two draws of `mutate_state` at
iteration `i`; `accept` resolves the acceptance draw). The source fixes
`initial_state := make_initial_state animation`; it is a parameter here so
that the claims can quantify over degenerate initial states as well. -/
def layout_params (a : Animation) (init : Layout)
    (increments which accept : Nat → Bool) : AnnealingParams Layout :=
  { initial_state := init
    mutate_state := fun i state => mutate_state state a (increments i) (which i)
    compute_energy := fun state => compute_energy state a
    steps := anneal_steps
    accept_draw := accept }

/-- `compute_layout` from pack_images.py: run the annealing optimizer with
the layout instantiation starting from `make_initial_state`. -/
def compute_layout (a : Animation)
    (increments which accept : Nat → Bool) : Layout :=
  simulate_annealing (layout_params a (make_initial_state a) increments which accept)

end V1

/-- The concrete descriptor of the spec scenario: 100 by 100 frames, 10 of
them, 24 fps. -/
def animation10 : Animation := ⟨100, 100, 10, 24⟩

/-- The shortfall-diagnostics scenario descriptor: same frames, 11 of them. -/
def animation11 : Animation := ⟨100, 100, 11, 24⟩

/-- A descriptor with 4000 by 4000 frames, giving the tiny 2 by 2 candidate
grid [(1,1), (1,2), (2,1), (2,2)]; used to instantiate universally
quantified theorems on concrete inputs. -/
def animation_small : Animation := ⟨4000, 4000, 2, 24⟩

/-- A descriptor whose frame width exceeds `MAX_SIDE_LENGTH`, so the
candidate grid is empty. -/
def animation_wide : Animation := ⟨12000, 100, 5, 24⟩

/-- Random streams for the annealing counterexample run: the first mutation
increments `columns`, every later mutation decrements `columns`. -/
def ce_increments : Nat → Bool := fun i => i == 0

/-- Random streams for the annealing counterexample run: every mutation
targets `columns`. -/
def ce_which : Nat → Bool := fun _ => true

/-- Random streams for the annealing counterexample run: every acceptance
draw fails (only forced acceptances happen). -/
def ce_accept : Nat → Bool := fun _ => false

namespace V2

/-- `select_better_layout` keeps its first argument exactly when the second is
not strictly better. -/
theorem select_better_layout_eq_left (a : Animation) (x y : Layout)
    (h : ¬ strictly_better a y x) : select_better_layout a x y = x := by
  simp only [select_better_layout, strictly_better] at *
  push_neg at h
  split_ifs with h1 h2 h3 h4
  · rfl
  · exact absurd h2 (by omega)
  · rfl
  · exact absurd h4 (by have := h.2 (by omega); omega)
  · rfl

/-- `select_better_layout` returns its second argument when it is strictly
better than the first. -/
theorem select_better_layout_eq_right (a : Animation) (x y : Layout)
    (h : strictly_better a y x) : select_better_layout a x y = y := by
  simp only [select_better_layout, strictly_better] at *
  split_ifs with h1 h2 h3 h4
  · exact absurd h1 (by omega)
  · rfl
  · exact absurd h3 (by omega)
  · rfl
  · exact absurd (rfl : frame_delta a y = frame_delta a y) (by omega)

/-- `select_better_layout` always returns one of its two arguments. -/
theorem select_better_layout_eq_or (a : Animation) (x y : Layout) :
    select_better_layout a x y = x ∨ select_better_layout a x y = y := by
  simp only [select_better_layout]
  split_ifs <;> simp

/-- A successful fold of `compute_layout_step` yields either the initial
accumulator or a member of the candidate list. -/
theorem compute_foldl_mem (a : Animation) :
    ∀ (L : List Layout) (acc : Option Layout) (l : Layout),
      L.foldl (compute_layout_step a) acc = some l → acc = some l ∨ l ∈ L := by
  intro L
  induction L with
  | nil => intro acc l h; exact Or.inl h
  | cons x xs ih =>
    intro acc l h
    simp only [List.foldl_cons] at h
    rcases ih (compute_layout_step a acc x) l h with h1 | h1
    · cases acc with
      | none =>
        simp only [compute_layout_step, Option.some.injEq] at h1
        exact Or.inr (h1 ▸ List.mem_cons_self x xs)
      | some b =>
        simp only [compute_layout_step, Option.some.injEq] at h1
        rcases select_better_layout_eq_or a b x with h2 | h2
        · exact Or.inl (by rw [← h1, h2])
        · exact Or.inr (by rw [← h1, h2]; exact List.mem_cons_self x xs)
    · exact Or.inr (List.mem_cons_of_mem x h1)

/-- Folding `compute_layout_step` never turns a non-`none` accumulator into
`none`. -/
theorem compute_foldl_ne_none (a : Animation) :
    ∀ (L : List Layout) (acc : Option Layout), acc ≠ none →
      L.foldl (compute_layout_step a) acc ≠ none := by
  intro L
  induction L with
  | nil => intro acc h; exact h
  | cons x xs ih =>
    intro acc h
    simp only [List.foldl_cons]
    apply ih
    cases acc with
    | none => simp [compute_layout_step]
    | some b => simp [compute_layout_step]

/-- Once the accumulator holds a layout that no remaining candidate strictly
beats, the fold keeps it unchanged. -/
theorem compute_foldl_keep (a : Animation) (m : Layout) :
    ∀ (L : List Layout), (∀ x ∈ L, ¬ strictly_better a x m) →
      L.foldl (compute_layout_step a) (some m) = some m := by
  intro L
  induction L with
  | nil => intro _; rfl
  | cons x xs ih =>
    intro h
    simp only [List.foldl_cons, compute_layout_step]
    rw [select_better_layout_eq_left a m x (h x (List.mem_cons_self x xs))]
    exact ih fun y hy => h y (List.mem_cons_of_mem x hy)

/-- The fold of `compute_layout_step` over `L1 ++ m :: L2` returns `m` when
`m` strictly beats everything before it and nothing after it strictly beats
`m`: the earliest lexicographic minimum wins. -/
theorem compute_foldl_first_min (a : Animation) (m : Layout) (L1 L2 : List Layout)
    (h1 : ∀ x ∈ L1, strictly_better a m x)
    (h2 : ∀ x ∈ L2, ¬ strictly_better a x m) :
    (L1 ++ m :: L2).foldl (compute_layout_step a) none = some m := by
  rw [List.foldl_append]
  have hacc : (L1.foldl (compute_layout_step a) none).elim True (fun b => b ∈ L1) := by
    cases hfold : L1.foldl (compute_layout_step a) none with
    | none => trivial
    | some b =>
      rcases compute_foldl_mem a L1 none b hfold with h | h
      · exact absurd h (by simp)
      · exact h
  cases hfold : L1.foldl (compute_layout_step a) none with
  | none =>
    simp only [List.foldl_cons, compute_layout_step]
    exact compute_foldl_keep a m L2 h2
  | some b =>
    rw [hfold] at hacc
    simp only [Option.elim] at hacc
    simp only [List.foldl_cons, compute_layout_step]
    rw [select_better_layout_eq_right a b m (h1 b hacc)]
    exact compute_foldl_keep a m L2 h2

/-- `frame_delta` written through `Int.natAbs`, the form used by `omega`. -/
theorem frame_delta_natAbs (a : Animation) (l : Layout) :
    frame_delta a l =
      ((l.columns * l.rows - (a.frame_count : Int)).natAbs : Int) := by
  rw [frame_delta, Int.abs_eq_natAbs]

/-- `side_length_delta` written through `Int.natAbs`, the form used by
`omega`. -/
theorem side_length_delta_natAbs (a : Animation) (l : Layout) :
    side_length_delta a l =
      ((l.columns * (a.frame_width : Int) -
        l.rows * (a.frame_height : Int)).natAbs : Int) := by
  rw [side_length_delta, Int.abs_eq_natAbs]

/-- Dense membership: the generated layouts of capacity at most the frame
count. -/
theorem mem_generate_dense_layouts (a : Animation) (l : Layout) :
    l ∈ generate_dense_layouts a ↔
      l ∈ generate_layouts a ∧ l.columns * l.rows ≤ (a.frame_count : Int) := by
  simp [generate_dense_layouts, List.mem_filter]

/-- Sparse membership: the generated layouts of capacity strictly above the
frame count. -/
theorem mem_generate_sparse_layouts (a : Animation) (l : Layout) :
    l ∈ generate_sparse_layouts a ↔
      l ∈ generate_layouts a ∧ l.columns * l.rows > (a.frame_count : Int) := by
  simp [generate_sparse_layouts, List.mem_filter]

/-- Filtering one column block of the grid by the dense capacity predicate
keeps exactly the rows up to the cutoff `k`. -/
theorem filter_block_eq (a : Animation) (c k n : Nat) (hk : k ≤ n)
    (hcut : ∀ r : Nat, 1 ≤ r → r ≤ n → (c * r ≤ a.frame_count ↔ r ≤ k)) :
    ((List.range' 1 n).map fun r => (⟨Nat.cast c, Nat.cast r⟩ : Layout)).filter
      (fun l => decide (l.columns * l.rows ≤ (a.frame_count : Int))) =
    (List.range' 1 k).map fun r => (⟨Nat.cast c, Nat.cast r⟩ : Layout) := by
  have hsplit : List.range' 1 n = List.range' 1 k ++ List.range' (1 + k) (n - k) := by
    have h := List.range'_append 1 k (n - k) 1
    rw [Nat.one_mul] at h
    rw [show (n - k) + k = n from by omega] at h
    exact h.symm
  rw [hsplit, List.map_append, List.filter_append]
  have h1 : ((List.range' 1 k).map fun r =>
      (⟨Nat.cast c, Nat.cast r⟩ : Layout)).filter
      (fun l => decide (l.columns * l.rows ≤ (a.frame_count : Int))) =
      (List.range' 1 k).map fun r => (⟨Nat.cast c, Nat.cast r⟩ : Layout) := by
    rw [List.filter_eq_self]
    intro x hx
    obtain ⟨r, hr, rfl⟩ := List.mem_map.mp hx
    rw [List.mem_range'_1] at hr
    rw [decide_eq_true_eq]
    have hcr : c * r ≤ a.frame_count := (hcut r (by omega) (by omega)).mpr (by omega)
    show (Nat.cast c : Int) * Nat.cast r ≤ (a.frame_count : Int)
    exact_mod_cast hcr
  have h2 : ((List.range' (1 + k) (n - k)).map fun r =>
      (⟨Nat.cast c, Nat.cast r⟩ : Layout)).filter
      (fun l => decide (l.columns * l.rows ≤ (a.frame_count : Int))) = [] := by
    rw [List.filter_eq_nil_iff]
    intro x hx
    obtain ⟨r, hr, rfl⟩ := List.mem_map.mp hx
    rw [List.mem_range'_1] at hr
    rw [decide_eq_true_eq]
    intro hcontra
    have hcr : c * r ≤ a.frame_count := by
      have : (Nat.cast c : Int) * Nat.cast r ≤ (a.frame_count : Int) := hcontra
      exact_mod_cast this
    have := (hcut r (by omega) (by omega)).mp hcr
    omega
  rw [h1, h2, List.append_nil]

/-- The 110 by 110 grid of a 100 by 100 frame, with the first two column
blocks peeled off. -/
theorem generate_layouts_10_eq :
    generate_layouts animation10 =
      ((List.range' 1 110).map fun r => (⟨Nat.cast 1, Nat.cast r⟩ : Layout)) ++
      (((List.range' 1 110).map fun r => (⟨Nat.cast 2, Nat.cast r⟩ : Layout)) ++
        ((List.range' 3 108).flatMap fun c =>
          (List.range' 1 110).map fun r => (⟨Nat.cast c, Nat.cast r⟩ : Layout))) :=
  rfl

/-- The same grid for `animation11`, with the first column block peeled
off. -/
theorem generate_layouts_11_eq :
    generate_layouts animation11 =
      ((List.range' 1 110).map fun r => (⟨Nat.cast 1, Nat.cast r⟩ : Layout)) ++
      ((List.range' 2 109).flatMap fun c =>
        (List.range' 1 110).map fun r => (⟨Nat.cast c, Nat.cast r⟩ : Layout)) :=
  rfl

/-- For `animation10`, the dense candidate sequence decomposes around (2,5):
column block 1 keeps rows 1..10, column block 2 keeps rows 1..5 of which
(2,5) is last, and the remaining blocks are the filtered tail. -/
theorem dense10_decomp :
    generate_dense_layouts animation10 =
      (((List.range' 1 10).map fun r => (⟨Nat.cast 1, Nat.cast r⟩ : Layout)) ++
        ((List.range' 1 4).map fun r => (⟨Nat.cast 2, Nat.cast r⟩ : Layout))) ++
      (⟨2, 5⟩ :: ((List.range' 3 108).flatMap fun c =>
          (List.range' 1 110).map fun r => (⟨Nat.cast c, Nat.cast r⟩ : Layout)).filter
        (fun l => decide (l.columns * l.rows ≤ (animation10.frame_count : Int)))) := by
  simp only [generate_dense_layouts]
  rw [generate_layouts_10_eq, List.filter_append, List.filter_append]
  rw [filter_block_eq animation10 1 10 110 (by omega)
    (fun r h1 h2 => by simp only [animation10]; omega)]
  rw [filter_block_eq animation10 2 5 110 (by omega)
    (fun r h1 h2 => by simp only [animation10]; omega)]
  rw [show List.range' 1 5 = List.range' 1 4 ++ [5] from rfl, List.map_append]
  simp [List.append_assoc]

/-- For `animation11`, the dense candidate sequence decomposes around (1,11):
column block 1 keeps rows 1..11 of which (1,11) is last, and the remaining
blocks are the filtered tail. -/
theorem dense11_decomp :
    generate_dense_layouts animation11 =
      ((List.range' 1 10).map fun r => (⟨Nat.cast 1, Nat.cast r⟩ : Layout)) ++
      (⟨1, 11⟩ :: ((List.range' 2 109).flatMap fun c =>
          (List.range' 1 110).map fun r => (⟨Nat.cast c, Nat.cast r⟩ : Layout)).filter
        (fun l => decide (l.columns * l.rows ≤ (animation11.frame_count : Int)))) := by
  simp only [generate_dense_layouts]
  rw [generate_layouts_11_eq, List.filter_append]
  rw [filter_block_eq animation11 1 11 110 (by omega)
    (fun r h1 h2 => by simp only [animation11]; omega)]
  rw [show List.range' 1 11 = List.range' 1 10 ++ [11] from rfl, List.map_append]
  simp [List.append_assoc]

/-- (2,5) strictly beats every dense candidate of column block 1 of
`animation10`. -/
theorem better25_block1 (r : Nat) (h1 : 1 ≤ r) (h2 : r ≤ 10) :
    strictly_better animation10 ⟨2, 5⟩ ⟨Nat.cast 1, Nat.cast r⟩ := by
  simp only [strictly_better, frame_delta_natAbs, side_length_delta_natAbs,
    animation10]
  omega

/-- (2,5) strictly beats the dense candidates (2,1)..(2,4) of column block 2
of `animation10`. -/
theorem better25_block2 (r : Nat) (h1 : 1 ≤ r) (h2 : r ≤ 4) :
    strictly_better animation10 ⟨2, 5⟩ ⟨Nat.cast 2, Nat.cast r⟩ := by
  simp only [strictly_better, frame_delta_natAbs, side_length_delta_natAbs,
    animation10]
  omega

/-- No dense candidate with at least three columns strictly beats (2,5) for
`animation10`: a zero frame delta forces capacity 10, i.e. (5,2) or (10,1),
whose side-length deltas are 300 and 900. -/
theorem not_better25_tail (c r : Nat) (hc : 3 ≤ c) (hr : 1 ≤ r)
    (hcr : c * r ≤ 10) :
    ¬ strictly_better animation10 ⟨Nat.cast c, Nat.cast r⟩ ⟨2, 5⟩ := by
  intro h
  simp only [strictly_better, frame_delta_natAbs, side_length_delta_natAbs,
    animation10] at h
  rw [show (Nat.cast c : Int) * Nat.cast r = Nat.cast (c * r) from by push_cast; ring] at h
  have hcle : c ≤ 10 := by
    have := Nat.le_mul_of_pos_right c hr
    omega
  rcases h with h | ⟨hd0, hside⟩
  · omega
  · have h10 : c * r = 10 := by omega
    interval_cases c <;> omega

/-- (1,11) strictly beats the dense candidates (1,1)..(1,10) of column block
1 of `animation11`. -/
theorem better111_block1 (r : Nat) (h1 : 1 ≤ r) (h2 : r ≤ 10) :
    strictly_better animation11 ⟨1, 11⟩ ⟨Nat.cast 1, Nat.cast r⟩ := by
  simp only [strictly_better, frame_delta_natAbs, side_length_delta_natAbs,
    animation11]
  omega

/-- No dense candidate with at least two columns strictly beats (1,11) for
`animation11`: a zero frame delta forces capacity 11, i.e. (11,1), whose
side-length delta 1000 ties that of (1,11). -/
theorem not_better111_tail (c r : Nat) (hc : 2 ≤ c) (hr : 1 ≤ r)
    (hcr : c * r ≤ 11) :
    ¬ strictly_better animation11 ⟨Nat.cast c, Nat.cast r⟩ ⟨1, 11⟩ := by
  intro h
  simp only [strictly_better, frame_delta_natAbs, side_length_delta_natAbs,
    animation11] at h
  rw [show (Nat.cast c : Int) * Nat.cast r = Nat.cast (c * r) from by push_cast; ring] at h
  have hcle : c ≤ 11 := by
    have := Nat.le_mul_of_pos_right c hr
    omega
  rcases h with h | ⟨hd0, hside⟩
  · omega
  · have h11 : c * r = 11 := by omega
    interval_cases c <;> omega

/-- The dense search for `animation10` returns (2,5). -/
theorem dense10_best : compute_layout animation10 false = some ⟨2, 5⟩ := by
  show (generate_dense_layouts animation10).foldl
    (compute_layout_step animation10) none = some ⟨2, 5⟩
  rw [dense10_decomp]
  apply compute_foldl_first_min
  · intro x hx
    rcases List.mem_append.mp hx with hx | hx
    · obtain ⟨r, hr, rfl⟩ := List.mem_map.mp hx
      rw [List.mem_range'_1] at hr
      exact better25_block1 r (by omega) (by omega)
    · obtain ⟨r, hr, rfl⟩ := List.mem_map.mp hx
      rw [List.mem_range'_1] at hr
      exact better25_block2 r (by omega) (by omega)
  · intro x hx
    obtain ⟨hmem, hp⟩ := List.mem_filter.mp hx
    obtain ⟨c, hc, hmap⟩ := List.mem_flatMap.mp hmem
    obtain ⟨r, hr, rfl⟩ := List.mem_map.mp hmap
    rw [List.mem_range'_1] at hc hr
    have hcr : c * r ≤ 10 := by
      have h10 : (Nat.cast c : Int) * Nat.cast r ≤ (animation10.frame_count : Int) :=
        of_decide_eq_true hp
      have : (Nat.cast c : Int) * Nat.cast r ≤ (10 : Int) := h10
      exact_mod_cast this
    exact not_better25_tail c r (by omega) (by omega) hcr

/-- The dense search for `animation11` returns (1,11), an exact fit. -/
theorem dense11_best : compute_layout animation11 false = some ⟨1, 11⟩ := by
  show (generate_dense_layouts animation11).foldl
    (compute_layout_step animation11) none = some ⟨1, 11⟩
  rw [dense11_decomp]
  apply compute_foldl_first_min
  · intro x hx
    obtain ⟨r, hr, rfl⟩ := List.mem_map.mp hx
    rw [List.mem_range'_1] at hr
    exact better111_block1 r (by omega) (by omega)
  · intro x hx
    obtain ⟨hmem, hp⟩ := List.mem_filter.mp hx
    obtain ⟨c, hc, hmap⟩ := List.mem_flatMap.mp hmem
    obtain ⟨r, hr, rfl⟩ := List.mem_map.mp hmap
    rw [List.mem_range'_1] at hc hr
    have hcr : c * r ≤ 11 := by
      have h11 : (Nat.cast c : Int) * Nat.cast r ≤ (animation11.frame_count : Int) :=
        of_decide_eq_true hp
      have : (Nat.cast c : Int) * Nat.cast r ≤ (11 : Int) := h11
      exact_mod_cast this
    exact not_better111_tail c r (by omega) (by omega) hcr

/-- The diagnostics of `pack_animation` for `animation11` are silent: the
dense layout (1,11) packs all 11 frames. -/
theorem pack_diagnostics11 : pack_diagnostics animation11 = none := by
  unfold pack_diagnostics
  rw [dense11_best]
  rfl

/-- Membership in the generated grid: exactly the layouts with natural
coordinates `1 ≤ columns ≤ max_columns` and `1 ≤ rows ≤ max_rows`. -/
theorem mem_generate_layouts (a : Animation) (l : Layout) :
    l ∈ generate_layouts a ↔
      ∃ c r : Nat, 1 ≤ c ∧ c ≤ MAX_SIDE_LENGTH / a.frame_width ∧
        1 ≤ r ∧ r ≤ MAX_SIDE_LENGTH / a.frame_height ∧
        l = { columns := (c : Int), rows := (r : Int) } := by
  simp only [generate_layouts]
  constructor
  · intro h
    rw [List.mem_flatMap] at h
    obtain ⟨c, hc, h⟩ := h
    rw [List.mem_map] at h
    obtain ⟨r, hr, rfl⟩ := h
    rw [List.mem_range'_1] at hc hr
    exact ⟨c, r, by omega, by omega, by omega, by omega, rfl⟩
  · rintro ⟨c, r, hc1, hc2, hr1, hr2, rfl⟩
    rw [List.mem_flatMap]
    refine ⟨c, ?_, ?_⟩
    · rw [List.mem_range'_1]; omega
    · rw [List.mem_map]
      exact ⟨r, by rw [List.mem_range'_1]; omega, rfl⟩

end V2

namespace V1

/-- A valid state stays valid under `mutate_state`: invalid mutations are
discarded. -/
theorem mutate_state_valid (a : Animation) (s : Layout) (b1 b2 : Bool)
    (h : state_valid s a = true) :
    state_valid (mutate_state s a b1 b2) a = true := by
  simp only [mutate_state]
  split_ifs <;> assumption

/-- `mutate_state` either returns a valid state or the unchanged input. -/
theorem mutate_state_valid_or_eq (a : Animation) (s : Layout) (b1 b2 : Bool) :
    state_valid (mutate_state s a b1 b2) a = true ∨ mutate_state s a b1 b2 = s := by
  simp only [mutate_state]
  split_ifs <;> first
    | exact Or.inl (by assumption)
    | exact Or.inr rfl

/-- Any predicate preserved by the mutation function is an invariant of the
annealing loop: the returned best state satisfies it whenever the incoming
current and best states do. -/
theorem simulate_annealing_loop_pred {σ : Type} (P : σ → Prop)
    (params : AnnealingParams σ)
    (hmut : ∀ i s, P s → P (params.mutate_state i s)) :
    ∀ (fuel i : Nat) (cur best : σ × Int), P cur.1 → P best.1 →
      P (simulate_annealing_loop params fuel i cur best) := by
  intro fuel
  induction fuel with
  | zero => intro i cur best _ hb; exact hb
  | succ n ih =>
    intro i cur best hc hb
    simp only [simulate_annealing_loop]
    split_ifs with h1 h2
    · exact ih (i + 1) _ _ (hmut i cur.1 hc) (hmut i cur.1 hc)
    · exact ih (i + 1) _ _ (hmut i cur.1 hc) hb
    · exact ih (i + 1) _ _ hc hb

/-- Any predicate preserved by the mutation function and satisfied by the
initial state is satisfied by the result of `simulate_annealing`. -/
theorem simulate_annealing_pred {σ : Type} (P : σ → Prop)
    (params : AnnealingParams σ)
    (hmut : ∀ i s, P s → P (params.mutate_state i s))
    (hinit : P params.initial_state) : P (simulate_annealing params) :=
  simulate_annealing_loop_pred P params hmut params.steps 0 _ _ hinit hinit

/-- Under the counterexample streams, once the current and best states are
(1,2) with energy 8, the loop is stationary: every later mutation proposes
(0,2), which `state_valid` rejects, and the unchanged state is re-accepted
without improving the best energy. -/
theorem ce_loop_stationary :
    ∀ (fuel i : Nat), 1 ≤ i →
      simulate_annealing_loop
        (layout_params animation10 ⟨0, 2⟩ ce_increments ce_which ce_accept)
        fuel i (⟨1, 2⟩, 8) (⟨1, 2⟩, 8) = ⟨1, 2⟩ := by
  intro fuel
  induction fuel with
  | zero => intro i _; rfl
  | succ n ih =>
    intro i hi
    have hinc : ce_increments i = false := by
      simp only [ce_increments, beq_eq_false_iff_ne, ne_eq]
      omega
    have hwhich : ce_which i = true := rfl
    have hmut : mutate_state ⟨1, 2⟩ animation10 (ce_increments i) (ce_which i) =
        ⟨1, 2⟩ := by
      rw [hinc, hwhich]
      decide
    simp only [simulate_annealing_loop, layout_params]
    rw [hmut]
    norm_num [compute_energy, animation10]
    exact ih (i + 1) (by omega)

end V1

/-- A layout with natural coordinates in the 110 by 110 grid and capacity at
most 10 is a dense candidate for `animation10`. -/
theorem mem_dense10 (l : Layout) (c r : Nat) (hl : l = ⟨Nat.cast c, Nat.cast r⟩)
    (h1 : 1 ≤ c) (h2 : c ≤ 110) (h3 : 1 ≤ r) (h4 : r ≤ 110) (h5 : c * r ≤ 10) :
    l ∈ V2.generate_dense_layouts animation10 := by
  rw [V2.mem_generate_dense_layouts]
  constructor
  · exact (V2.mem_generate_layouts _ _).mpr ⟨c, r, h1, h2, h3, h4, hl⟩
  · rw [hl]
    show (Nat.cast c : Int) * Nat.cast r ≤ (animation10.frame_count : Int)
    rw [show (animation10.frame_count : Int) = 10 from rfl]
    exact_mod_cast h5

/-- C1: for the 100 by 100, 10-frame descriptor, the exhaustive dense search
returns exactly (2,5); the delta-0 dense candidates (1,10), (2,5), (5,2),
(10,1) have squareness 900, 300, 300, 900, and the tied pair (2,5), (5,2) is
decided for (2,5), the one encountered first under the columns-outer,
rows-inner iteration order. -/
theorem C1_dense_scenario_best_layout :
    V2.compute_layout animation10 false = some ⟨2, 5⟩ ∧
    ((⟨1, 10⟩ : Layout) ∈ V2.generate_dense_layouts animation10 ∧
      V2.frame_delta animation10 ⟨1, 10⟩ = 0 ∧
      V2.side_length_delta animation10 ⟨1, 10⟩ = 900) ∧
    ((⟨2, 5⟩ : Layout) ∈ V2.generate_dense_layouts animation10 ∧
      V2.frame_delta animation10 ⟨2, 5⟩ = 0 ∧
      V2.side_length_delta animation10 ⟨2, 5⟩ = 300) ∧
    ((⟨5, 2⟩ : Layout) ∈ V2.generate_dense_layouts animation10 ∧
      V2.frame_delta animation10 ⟨5, 2⟩ = 0 ∧
      V2.side_length_delta animation10 ⟨5, 2⟩ = 300) ∧
    ((⟨10, 1⟩ : Layout) ∈ V2.generate_dense_layouts animation10 ∧
      V2.frame_delta animation10 ⟨10, 1⟩ = 0 ∧
      V2.side_length_delta animation10 ⟨10, 1⟩ = 900) :=
  ⟨V2.dense10_best,
   ⟨mem_dense10 _ 1 10 (by decide) (by decide) (by decide) (by decide)
      (by decide) (by decide), by decide, by decide⟩,
   ⟨mem_dense10 _ 2 5 (by decide) (by decide) (by decide) (by decide)
      (by decide) (by decide), by decide, by decide⟩,
   ⟨mem_dense10 _ 5 2 (by decide) (by decide) (by decide) (by decide)
      (by decide) (by decide), by decide, by decide⟩,
   ⟨mem_dense10 _ 10 1 (by decide) (by decide) (by decide) (by decide)
      (by decide) (by decide), by decide, by decide⟩⟩

/-- C2 counterexample: for the 11-frame descriptor the exhaustive dense
search returns the exact fit (1,11) of capacity 11 — not a capacity-10
candidate such as (2,5) — so the diagnostics of `pack_animation` print
nothing: no frame is removed and the sparse search is never consulted. -/
theorem C2_counterexample_exact_fit :
    V2.compute_layout animation11 false = some ⟨1, 11⟩ ∧
    (⟨1, 11⟩ : Layout).columns * (⟨1, 11⟩ : Layout).rows =
      (animation11.frame_count : Int) ∧
    V2.pack_diagnostics animation11 = none :=
  ⟨V2.dense11_best, by decide, V2.pack_diagnostics11⟩

/-- C2 (amended): for the 11-frame descriptor the exhaustive dense search
yields a best dense candidate whose capacity equals the frame count (the
exact fit (1,11)), and the diagnostics driver therefore reports nothing —
no removal count and no sparse-search add count. -/
theorem C2_amended_no_shortfall :
    ∃ l : Layout, V2.compute_layout animation11 false = some l ∧
      l.columns * l.rows = (animation11.frame_count : Int) ∧
      V2.pack_diagnostics animation11 = none :=
  ⟨⟨1, 11⟩, V2.dense11_best, by decide, V2.pack_diagnostics11⟩

/-- C3: for every animation and every pair of candidates, `select_better_layout`
returns the candidate with the strictly smaller absolute frame delta; if those
are equal, the candidate with the strictly smaller absolute side-length delta;
and if both measures are equal, its first argument. -/
theorem C3_select_better_layout_ranking (a : Animation) (l1 l2 : Layout) :
    (V2.frame_delta a l1 < V2.frame_delta a l2 →
      V2.select_better_layout a l1 l2 = l1) ∧
    (V2.frame_delta a l2 < V2.frame_delta a l1 →
      V2.select_better_layout a l1 l2 = l2) ∧
    (V2.frame_delta a l1 = V2.frame_delta a l2 →
      (V2.side_length_delta a l1 < V2.side_length_delta a l2 →
        V2.select_better_layout a l1 l2 = l1) ∧
      (V2.side_length_delta a l2 < V2.side_length_delta a l1 →
        V2.select_better_layout a l1 l2 = l2) ∧
      (V2.side_length_delta a l1 = V2.side_length_delta a l2 →
        V2.select_better_layout a l1 l2 = l1)) := by
  refine ⟨fun h => V2.select_better_layout_eq_left a l1 l2 ?_,
    fun h => V2.select_better_layout_eq_right a l1 l2 ?_,
    fun h => ⟨fun h2 => V2.select_better_layout_eq_left a l1 l2 ?_,
      fun h2 => V2.select_better_layout_eq_right a l1 l2 ?_,
      fun h2 => V2.select_better_layout_eq_left a l1 l2 ?_⟩⟩ <;>
    simp only [V2.strictly_better] <;> omega

/-- Witness for C3 at the spec scenario: (2,5) against (1,10) is an exact
frame-delta tie decided by the smaller side-length delta, and (2,5) beats
(1,9) on the frame delta alone. -/
theorem C3_select_better_layout_ranking_witness :
    V2.select_better_layout animation10 ⟨2, 5⟩ ⟨1, 10⟩ = ⟨2, 5⟩ ∧
    V2.select_better_layout animation10 ⟨1, 9⟩ ⟨2, 5⟩ = ⟨2, 5⟩ :=
  ⟨((C3_select_better_layout_ranking animation10 ⟨2, 5⟩ ⟨1, 10⟩).2.2
      (by decide)).1 (by decide),
   (C3_select_better_layout_ranking animation10 ⟨1, 9⟩ ⟨2, 5⟩).2.1 (by decide)⟩

/-- C6: for every animation, the dense and sparse layout sequences are
exactly the generated layouts with capacity at most, respectively strictly
above, the frame count; they are disjoint and their union is the full grid. -/
theorem C6_dense_sparse_partition (a : Animation) (l : Layout) :
    (l ∈ V2.generate_dense_layouts a ↔
      l ∈ V2.generate_layouts a ∧ l.columns * l.rows ≤ (a.frame_count : Int)) ∧
    (l ∈ V2.generate_sparse_layouts a ↔
      l ∈ V2.generate_layouts a ∧ l.columns * l.rows > (a.frame_count : Int)) ∧
    ¬ (l ∈ V2.generate_dense_layouts a ∧ l ∈ V2.generate_sparse_layouts a) ∧
    (l ∈ V2.generate_layouts a ↔
      l ∈ V2.generate_dense_layouts a ∨ l ∈ V2.generate_sparse_layouts a) := by
  have hd : l ∈ V2.generate_dense_layouts a ↔
      l ∈ V2.generate_layouts a ∧ l.columns * l.rows ≤ (a.frame_count : Int) := by
    simp [V2.generate_dense_layouts, List.mem_filter]
  have hs : l ∈ V2.generate_sparse_layouts a ↔
      l ∈ V2.generate_layouts a ∧ l.columns * l.rows > (a.frame_count : Int) := by
    simp [V2.generate_sparse_layouts, List.mem_filter]
  refine ⟨hd, hs, ?_, ?_⟩
  · rintro ⟨h1, h2⟩
    rw [hd] at h1
    rw [hs] at h2
    omega
  · constructor
    · intro h
      by_cases hc : l.columns * l.rows ≤ (a.frame_count : Int)
      · exact Or.inl (hd.mpr ⟨h, hc⟩)
      · exact Or.inr (hs.mpr ⟨h, by omega⟩)
    · rintro (h | h)
      · exact (hd.mp h).1
      · exact (hs.mp h).1

/-- C7: every layout returned by the dense search has capacity at most the
frame count, and every layout returned by the sparse search has capacity
strictly above the frame count. -/
theorem C7_capacity_bounds (a : Animation) (l : Layout) :
    (V2.compute_layout a false = some l →
      l.columns * l.rows ≤ (a.frame_count : Int)) ∧
    (V2.compute_layout a true = some l →
      l.columns * l.rows > (a.frame_count : Int)) := by
  constructor
  · intro h
    replace h : (V2.generate_dense_layouts a).foldl
        (V2.compute_layout_step a) none = some l := h
    rcases V2.compute_foldl_mem a _ none l h with h1 | h1
    · exact absurd h1 (by simp)
    · simp only [V2.generate_dense_layouts, List.mem_filter] at h1
      exact of_decide_eq_true h1.2
  · intro h
    replace h : (V2.generate_sparse_layouts a).foldl
        (V2.compute_layout_step a) none = some l := h
    rcases V2.compute_foldl_mem a _ none l h with h1 | h1
    · exact absurd h1 (by simp)
    · simp only [V2.generate_sparse_layouts, List.mem_filter] at h1
      exact of_decide_eq_true h1.2

/-- Witness for C7 on the 2 by 2 grid of `animation_small`: the dense search
returns (1,2) with capacity 2 ≤ 2 and the sparse search returns (2,2) with
capacity 4 > 2. -/
theorem C7_capacity_bounds_witness :
    (1 : Int) * 2 ≤ ((animation_small.frame_count : Nat) : Int) ∧
    (2 : Int) * 2 > ((animation_small.frame_count : Nat) : Int) :=
  ⟨(C7_capacity_bounds animation_small ⟨1, 2⟩).1 (by decide),
   (C7_capacity_bounds animation_small ⟨2, 2⟩).2 (by decide)⟩

/-- C8: `compute_layout` returns `none` exactly when its candidate sequence
is empty; in particular a frame width (or height) above `MAX_SIDE_LENGTH`
empties the generated grid and makes both searches return `none`. -/
theorem C8_none_iff_empty (a : Animation) (sparse : Bool) :
    (V2.compute_layout a sparse = none ↔
      (if sparse then V2.generate_sparse_layouts a
        else V2.generate_dense_layouts a) = []) ∧
    (a.frame_width > MAX_SIDE_LENGTH ∨ a.frame_height > MAX_SIDE_LENGTH →
      V2.generate_layouts a = [] ∧
      V2.compute_layout a false = none ∧ V2.compute_layout a true = none) := by
  have hiff : ∀ b : Bool, (V2.compute_layout a b = none ↔
      (if b then V2.generate_sparse_layouts a
        else V2.generate_dense_layouts a) = []) := by
    intro b
    simp only [V2.compute_layout]
    cases hL : (if b then V2.generate_sparse_layouts a
        else V2.generate_dense_layouts a) with
    | nil => simp
    | cons x xs =>
      simp only [List.foldl_cons]
      constructor
      · intro h
        exact absurd h (V2.compute_foldl_ne_none a xs
          (V2.compute_layout_step a none x) (by simp [V2.compute_layout_step]))
      · intro h
        exact absurd h (by simp)
  refine ⟨hiff sparse, fun h => ?_⟩
  have hgl : V2.generate_layouts a = [] := by
    rw [List.eq_nil_iff_forall_not_mem]
    intro l hl
    rw [V2.mem_generate_layouts] at hl
    obtain ⟨c, r, hc1, hc2, hr1, hr2, _⟩ := hl
    rcases h with h | h
    · have hz : MAX_SIDE_LENGTH / a.frame_width = 0 := Nat.div_eq_of_lt h
      omega
    · have hz : MAX_SIDE_LENGTH / a.frame_height = 0 := Nat.div_eq_of_lt h
      omega
  refine ⟨hgl, ?_, ?_⟩
  · rw [hiff false]
    simp [V2.generate_dense_layouts, hgl]
  · rw [hiff true]
    simp [V2.generate_sparse_layouts, hgl]

/-- Witness for C8 at `animation_wide` (frame width 12000 > 11000): the
generated grid is empty and both searches return `none`. -/
theorem C8_none_iff_empty_witness :
    V2.generate_layouts animation_wide = [] ∧
    V2.compute_layout animation_wide false = none ∧
    V2.compute_layout animation_wide true = none :=
  (C8_none_iff_empty animation_wide false).2 (Or.inl (by decide))

/-- C10: whenever `compute_layout` (dense or sparse) returns a layout, that
layout lies in the generated grid: its coordinates are between 1 and the
floor-divided maxima, hence its packed width and height are at most
`MAX_SIDE_LENGTH`. -/
theorem C10_result_in_grid (a : Animation) (sparse : Bool) (l : Layout)
    (h : V2.compute_layout a sparse = some l) :
    l ∈ V2.generate_layouts a ∧
    1 ≤ l.columns ∧ l.columns ≤ ((MAX_SIDE_LENGTH / a.frame_width : Nat) : Int) ∧
    1 ≤ l.rows ∧ l.rows ≤ ((MAX_SIDE_LENGTH / a.frame_height : Nat) : Int) ∧
    l.columns * (a.frame_width : Int) ≤ (MAX_SIDE_LENGTH : Int) ∧
    l.rows * (a.frame_height : Int) ≤ (MAX_SIDE_LENGTH : Int) := by
  have hmem : l ∈ V2.generate_layouts a := by
    simp only [V2.compute_layout] at h
    cases sparse with
    | false =>
      rw [if_neg Bool.false_ne_true] at h
      rcases V2.compute_foldl_mem a _ none l h with h1 | h1
      · exact absurd h1 (by simp)
      · exact (List.mem_filter.mp h1).1
    | true =>
      rw [if_pos rfl] at h
      rcases V2.compute_foldl_mem a _ none l h with h1 | h1
      · exact absurd h1 (by simp)
      · exact (List.mem_filter.mp h1).1
  obtain ⟨c, r, hc1, hc2, hr1, hr2, rfl⟩ := (V2.mem_generate_layouts a l).mp hmem
  have hwpos : 0 < a.frame_width := by
    rcases Nat.eq_zero_or_pos a.frame_width with hw | hw
    · rw [hw] at hc2
      simp [Nat.div_zero] at hc2
      omega
    · exact hw
  have hhpos : 0 < a.frame_height := by
    rcases Nat.eq_zero_or_pos a.frame_height with hh | hh
    · rw [hh] at hr2
      simp [Nat.div_zero] at hr2
      omega
    · exact hh
  have hcw : c * a.frame_width ≤ MAX_SIDE_LENGTH :=
    (Nat.le_div_iff_mul_le hwpos).mp hc2
  have hrh : r * a.frame_height ≤ MAX_SIDE_LENGTH :=
    (Nat.le_div_iff_mul_le hhpos).mp hr2
  refine ⟨hmem, by push_cast; omega, by push_cast; omega, by push_cast; omega,
    by push_cast; omega, ?_, ?_⟩
  · show (Nat.cast c : Int) * (a.frame_width : Int) ≤ (MAX_SIDE_LENGTH : Int)
    exact_mod_cast hcw
  · show (Nat.cast r : Int) * (a.frame_height : Int) ≤ (MAX_SIDE_LENGTH : Int)
    exact_mod_cast hrh

/-- Witness for C10 on the 2 by 2 grid of `animation_small`: the dense result
(1,2) lies in the grid with all bounds satisfied. -/
theorem C10_result_in_grid_witness :
    (⟨1, 2⟩ : Layout) ∈ V2.generate_layouts animation_small ∧
    1 ≤ (⟨1, 2⟩ : Layout).columns ∧
    (⟨1, 2⟩ : Layout).columns ≤
      ((MAX_SIDE_LENGTH / animation_small.frame_width : Nat) : Int) ∧
    1 ≤ (⟨1, 2⟩ : Layout).rows ∧
    (⟨1, 2⟩ : Layout).rows ≤
      ((MAX_SIDE_LENGTH / animation_small.frame_height : Nat) : Int) ∧
    (⟨1, 2⟩ : Layout).columns * (animation_small.frame_width : Int) ≤
      (MAX_SIDE_LENGTH : Int) ∧
    (⟨1, 2⟩ : Layout).rows * (animation_small.frame_height : Int) ≤
      (MAX_SIDE_LENGTH : Int) :=
  C10_result_in_grid animation_small false ⟨1, 2⟩ (by decide)

/-- C4 counterexample: `state_valid` accepts a candidate with negative
columns: for (-1, 1) the packed width -100 is not above 11000 and the
capacity -1 is below the frame count, so every check passes. -/
theorem C4_counterexample_negative_columns :
    V1.state_valid ⟨-1, 1⟩ animation10 = true ∧
    (⟨-1, 1⟩ : Layout).columns < 0 := by decide

/-- C4 (amended): `state_valid` returns true only if columns and rows are
nonzero (not necessarily at least 1), the packed width and height are at most
11000, and the capacity is at most the frame count. -/
theorem C4_amended_state_valid_necessary (a : Animation) (s : Layout)
    (h : V1.state_valid s a = true) :
    s.columns ≠ 0 ∧ s.rows ≠ 0 ∧
    s.columns * (a.frame_width : Int) ≤ 11000 ∧
    s.rows * (a.frame_height : Int) ≤ 11000 ∧
    s.rows * s.columns ≤ (a.frame_count : Int) := by
  simp only [V1.state_valid] at h
  split_ifs at h with h1 h2
  rw [decide_eq_true_eq] at h
  simp only [Bool.or_eq_true, decide_eq_true_eq, not_or] at h1 h2
  exact ⟨h1.2, h1.1, by omega, by omega, h⟩

/-- Witness for C4 (amended) at the valid state (2,5) of `animation10`. -/
theorem C4_amended_state_valid_necessary_witness :
    (⟨2, 5⟩ : Layout).columns ≠ 0 ∧ (⟨2, 5⟩ : Layout).rows ≠ 0 ∧
    (⟨2, 5⟩ : Layout).columns * (animation10.frame_width : Int) ≤ 11000 ∧
    (⟨2, 5⟩ : Layout).rows * (animation10.frame_height : Int) ≤ 11000 ∧
    (⟨2, 5⟩ : Layout).rows * (⟨2, 5⟩ : Layout).columns ≤
      (animation10.frame_count : Int) :=
  C4_amended_state_valid_necessary animation10 ⟨2, 5⟩ (by decide)

/-- C5: under the layout instantiation, for every animation, every valid
initial state and every sequence of random draws, the state returned by
`simulate_annealing` satisfies `state_valid`: rejected mutations keep the
current state valid throughout, and so the recorded best state is valid. -/
theorem C5_annealing_preserves_validity (a : Animation) (s0 : Layout)
    (increments which accept : Nat → Bool)
    (h : V1.state_valid s0 a = true) :
    V1.state_valid
      (V1.simulate_annealing (V1.layout_params a s0 increments which accept))
      a = true :=
  V1.simulate_annealing_pred (fun s => V1.state_valid s a = true) _
    (fun i s hs => V1.mutate_state_valid a s (increments i) (which i) hs) h

/-- Witness for C5: a run from the valid state (2,5) of `animation10`. -/
theorem C5_annealing_preserves_validity_witness :
    V1.state_valid
      (V1.simulate_annealing
        (V1.layout_params animation10 ⟨2, 5⟩ ce_which ce_which ce_accept))
      animation10 = true :=
  C5_annealing_preserves_validity animation10 ⟨2, 5⟩ ce_which ce_which ce_accept
    (by decide)

/-- C9 counterexample: from the degenerate initial state (0,2) of
`animation10` (zero columns), the draw sequence that first increments
columns reaches the valid state (1,2) with strictly smaller energy, so the
optimizer returns (1,2), not the degenerate initial state. -/
theorem C9_counterexample_degenerate_escape :
    V1.state_valid ⟨0, 2⟩ animation10 = false ∧
    V1.simulate_annealing
      (V1.layout_params animation10 ⟨0, 2⟩ ce_increments ce_which ce_accept) =
      ⟨1, 2⟩ ∧
    (⟨1, 2⟩ : Layout) ≠ ⟨0, 2⟩ := by
  refine ⟨by decide, ?_, by decide⟩
  have h0 : V1.simulate_annealing
      (V1.layout_params animation10 ⟨0, 2⟩ ce_increments ce_which ce_accept) =
      V1.simulate_annealing_loop
        (V1.layout_params animation10 ⟨0, 2⟩ ce_increments ce_which ce_accept)
        (14998 + 1) 0 (⟨0, 2⟩, 10) (⟨0, 2⟩, 10) := rfl
  rw [h0]
  have hmut0 : V1.mutate_state ⟨0, 2⟩ animation10 (ce_increments 0) (ce_which 0) =
      ⟨1, 2⟩ := by decide
  rw [V1.simulate_annealing_loop]
  simp only [V1.layout_params]
  rw [hmut0]
  rw [if_pos (Or.inl (show V1.compute_energy ⟨1, 2⟩ animation10 ≤ 10 from by decide))]
  rw [if_pos (show V1.compute_energy ⟨1, 2⟩ animation10 < 10 from by decide)]
  show V1.simulate_annealing_loop
    (V1.layout_params animation10 ⟨0, 2⟩ ce_increments ce_which ce_accept)
    14998 1 (⟨1, 2⟩, 8) (⟨1, 2⟩, 8) = ⟨1, 2⟩
  exact V1.ce_loop_stationary 14998 1 (by omega)

/-- C9 (amended): with the layout schedule, `simulate_annealing` is total and
returns a state for every initial state and every sequence of draws; the
returned state is either the initial state itself (in particular a degenerate
initial state this optimizer cannot escape) or a state satisfying
`state_valid`. -/
theorem C9_amended_returns_initial_or_valid (a : Animation) (s0 : Layout)
    (increments which accept : Nat → Bool) :
    V1.simulate_annealing (V1.layout_params a s0 increments which accept) = s0 ∨
    V1.state_valid
      (V1.simulate_annealing (V1.layout_params a s0 increments which accept))
      a = true :=
  V1.simulate_annealing_pred (fun s => s = s0 ∨ V1.state_valid s a = true) _
    (fun i s hs => by
      have hdef : (V1.layout_params a s0 increments which accept).mutate_state i s =
          V1.mutate_state s a (increments i) (which i) := rfl
      rcases V1.mutate_state_valid_or_eq a s (increments i) (which i) with hv | he
      · right
        rw [hdef]
        exact hv
      · rw [hdef, he]
        exact hs)
    (Or.inl rfl)
